import Mathlib

/-!
Verification of the console screen-buffer subsystem (`src/host/screenInfo.cpp`).

The definitions below are a shallow embedding of the C++ member functions of
`SCREEN_INFORMATION` into Lean.  Machine `SHORT`/`int` values are modelled as
`Int` (the source never overflows in the regimes the theorems speak about,
except where an explicit cast occurs, which is modelled with `% 65536`).
Coordinates `COORD` become `Int × Int`, rectangles `SMALL_RECT` become a
four-field structure, `NTSTATUS` becomes the inductive `NtStatus`.
-/

set_option autoImplicit false

/-- Status codes returned by the screen-buffer operations, mirroring the
NTSTATUS values used in `screenInfo.cpp`. -/
inductive NtStatus where
  | success
  | invalidParameter
  | noMemory
  | invalidHandle
deriving DecidableEq, Repr

/-- An inclusive rectangle, mirroring `SMALL_RECT`. -/
@[ext]
structure SmallRect where
  left : Int
  top : Int
  right : Int
  bottom : Int
deriving DecidableEq, Repr

/-- Model of `SCREEN_INFORMATION::SetScreenBufferSize` (screenInfo.cpp:119):
each dimension of the candidate is `max(1, requested)` and the candidate is
stored as `_coordScreenBufferSize`. -/
def SetScreenBufferSize (coordNewBufferSize : Int × Int) : Int × Int :=
  (max 1 coordNewBufferSize.1, max 1 coordNewBufferSize.2)

/-- Model of `SCREEN_INFORMATION::SetCursorPosition` (screenInfo.cpp:1758):
given the buffer size, the current cursor position and the requested position,
returns the status together with the cursor position afterwards.  The focus
bookkeeping (`SetDelay`/`SetIsOn`) does not touch the position. -/
def SetCursorPosition (coordScreenBufferSize : Int × Int)
    (cursorPos : Int × Int) (Position : Int × Int) : NtStatus × (Int × Int) :=
  if Position.1 ≥ coordScreenBufferSize.1 ∨ Position.2 ≥ coordScreenBufferSize.2 ∨
      Position.1 < 0 ∨ Position.2 < 0 then
    (.invalidParameter, cursorPos)
  else
    (.success, Position)

/-! ### Tab stops

The tab stops live in a singly linked list `_ptsTabs` kept in strictly
increasing column order; we model the list of `sColumn` fields as `List Int`.
Allocation of a new `TabStop` node is assumed to succeed (the claims settled
here are about the success-path control flow of `AddTabStop`). -/

/-- The search loop of `SCREEN_INFORMATION::AddTabStop` (screenInfo.cpp:2038):
starting from a non-null head whose column is `≤ sColumn`, walk with `prev`
until either a node with exactly `sColumn` is found (the loop breaks with
`fSearching` still `true` and nothing is inserted — result `none`), or the
insertion point after `prev` is found (result contains the updated list). -/
def addTabStopSearch (sColumn : Int) : List Int → Option (List Int)
  | [] => some [sColumn]
  | [p] => if p = sColumn then none else some [p, sColumn]
  | p :: q :: rest =>
    if p = sColumn then none
    else if q > sColumn then some (p :: sColumn :: q :: rest)
    else (addTabStopSearch sColumn (q :: rest)).map (fun l => p :: l)

/-- Model of `SCREEN_INFORMATION::AddTabStop` (screenInfo.cpp:2021).
`Status` is initialised to `STATUS_NO_MEMORY`; it is set to a success value
only when a node is actually allocated and inserted.  In particular, when the
search loop finds an existing stop at `sColumn`, the function returns with the
initial `STATUS_NO_MEMORY` even though no allocation was attempted. -/
def AddTabStop (sColumn : Int) (tabs : List Int) : NtStatus × List Int :=
  match tabs with
  | [] => (.success, [sColumn])
  | t :: _ =>
    if t > sColumn then (.success, sColumn :: tabs)
    else
      match addTabStopSearch sColumn tabs with
      | none => (.noMemory, tabs)
      | some l => (.success, l)

/-- The scan loop of `SCREEN_INFORMATION::GetReverseTab` (screenInfo.cpp:2205):
iterate while a successor exists and the cursor column is strictly beyond the
successor's column; return the column of the node the loop stops on. -/
def revTabScan (x : Int) : List Int → Int
  | [] => 0
  | [c] => c
  | c :: d :: rest => if x > d then revTabScan x (d :: rest) else c

/-- Model of `SCREEN_INFORMATION::GetReverseTab` (screenInfo.cpp:2193). -/
def GetReverseTab (tabs : List Int) (cCurrCursorPos : Int × Int) : Int × Int :=
  match tabs with
  | [] => (0, cCurrCursorPos.2)
  | t :: _ =>
    if cCurrCursorPos.1 = 0 ∨ t ≥ cCurrCursorPos.1 then (0, cCurrCursorPos.2)
    else (revTabScan cCurrCursorPos.1 tabs, cCurrCursorPos.2)

/-! ### Scrollbar visibility -/

/-- Model of `SCREEN_INFORMATION::s_CalculateScrollbarVisibility`
(screenInfo.cpp:1134).  Inputs are the client area width/height in pixels, the
buffer size in characters, the font size in pixels and the two scroll-bar
pixel thicknesses; the result is the pair
(horizontal bar visible, vertical bar visible). -/
def s_CalculateScrollbarVisibility (clientW clientH bufX bufY fontX fontY scrollH scrollV : Int) :
    Bool × Bool :=
  let bufPxX := bufX * fontX
  let bufPxY := bufY * fontY
  if bufPxX > clientW then
    (true, decide (bufPxY > clientH - scrollH))
  else if bufPxY > clientH then
    (decide (bufPxX > clientW - scrollV), true)
  else
    (false, false)

/-- Reference algorithm written from the specification's words (spec §4.2,
steps 2 and 3): if the buffer is wider than the client, mark horizontal
visible, subtract the horizontal bar height from the client height, then test
the vertical bar; only otherwise, if the buffer is taller than the client,
mark vertical visible, subtract the vertical bar width from the client width
and re-test the horizontal condition. -/
def scrollbarVisibilitySpec (clientW clientH bufX bufY fontX fontY scrollH scrollV : Int) :
    Bool × Bool :=
  let bufPx : Int × Int := (bufX * fontX, bufY * fontY)
  if bufPx.1 > clientW then
    let clientH2 := clientH - scrollH
    (true, decide (bufPx.2 > clientH2))
  else if bufPx.2 > clientH then
    let clientW2 := clientW - scrollV
    (decide (bufPx.1 > clientW2), true)
  else
    (false, false)

/-! ### Reflow cursor-homing fallback -/

/-- The cursor-homing fallback of `SCREEN_INFORMATION::ResizeWithReflow`
(screenInfo.cpp:1335-1381), reached when no cursor position was captured while
copying characters.  Returns the number of `NewlineCursor` calls and the
number of `IncrementCursor` calls that the two loops perform (on the
allocation-success path): `iNewlines = oldCursor.Y - oldLastChar.Y`, reduced
by one (clamped at zero) if the last row of the new buffer is soft-wrapped,
otherwise reduced by one (clamped at zero) if the last row of the old buffer
was soft-wrapped; the loops run `iNewlines` and `iIncrements - 1` times. -/
def reflowCursorFallback (cOldCursorPos cOldLastChar : Int × Int)
    (newLastRowWrapForced oldLastRowWrapForced : Bool) : Nat × Nat :=
  let iNewlines0 : Int := cOldCursorPos.2 - cOldLastChar.2
  let iIncrements : Int := cOldCursorPos.1 - cOldLastChar.1
  let iNewlines : Int :=
    if newLastRowWrapForced then max (iNewlines0 - 1) 0
    else if oldLastRowWrapForced then max (iNewlines0 - 1) 0
    else iNewlines0
  (iNewlines.toNat, (iIncrements - 1).toNat)

/-! ## Theorems for the simpler claims -/

/-- C9: for every requested size `(x, y)`, including zero or negative
components, `SetScreenBufferSize` stores exactly `(max 1 x, max 1 y)`; the
clamp is only from below, so no upper bound (in particular not 32766) is
enforced here. -/
theorem C9_setScreenBufferSize_clamps_below (x y : Int) :
    SetScreenBufferSize (x, y) = (max 1 x, max 1 y) ∧
    SetScreenBufferSize (40000, -5) = (40000, 1) ∧
    SetScreenBufferSize (0, 32767) = (1, 32767) :=
  ⟨rfl, by decide, by decide⟩

/-- C10: `SetCursorPosition p` returns `InvalidParameter` exactly when `p` is
outside `[0, cols) × [0, rows)`, leaving the cursor unchanged; otherwise it
returns `Success` and the cursor position afterwards equals `p`. -/
theorem C10_setCursorPosition_bounds (sz cur p : Int × Int) :
    SetCursorPosition sz cur p =
      if p.1 < 0 ∨ p.2 < 0 ∨ p.1 ≥ sz.1 ∨ p.2 ≥ sz.2 then (.invalidParameter, cur)
      else (.success, p) := by
  simp only [SetCursorPosition]
  by_cases h1 : p.1 ≥ sz.1 ∨ p.2 ≥ sz.2 ∨ p.1 < 0 ∨ p.2 < 0
  · rw [if_pos h1, if_pos (by tauto)]
  · rw [if_neg h1, if_neg (by tauto)]

/-- C5 (failing input): with a single tab stop already at column 4, calling
`AddTabStop 4` leaves the list unchanged (the documented no-op) but returns
`STATUS_NO_MEMORY` — a failure reported to the caller although no memory
exhaustion occurred.  For contrast, the same call on an empty list succeeds. -/
theorem C5_addTabStop_duplicate_reports_noMemory :
    AddTabStop 4 [4] = (.noMemory, [4]) ∧
    AddTabStop 4 [] = (.success, [4]) ∧
    AddTabStop 4 [2, 4, 8] = (.noMemory, [2, 4, 8]) := by
  decide

/-- Specification of the `GetReverseTab` scan loop: on a sorted list whose
head is strictly left of the cursor column, the loop stops on the greatest
stop strictly less than the cursor column. -/
theorem revTabScan_greatest (x : Int) (rest : List Int) (c : Int)
    (hs : (c :: rest).Sorted (· < ·)) (hc : c < x) :
    revTabScan x (c :: rest) ∈ c :: rest ∧ revTabScan x (c :: rest) < x ∧
      ∀ t ∈ c :: rest, t < x → t ≤ revTabScan x (c :: rest) := by
  induction rest generalizing c with
  | nil =>
    simp only [revTabScan]
    refine ⟨List.mem_singleton.mpr rfl, hc, ?_⟩
    intro t ht _
    exact le_of_eq (List.mem_singleton.mp ht)
  | cons d rest ih =>
    rw [List.sorted_cons] at hs
    obtain ⟨hcd, hsd⟩ := hs
    by_cases hxd : x > d
    · have hres := ih d hsd hxd
      simp only [revTabScan, if_pos hxd]
      refine ⟨List.mem_cons_of_mem c hres.1, hres.2.1, ?_⟩
      intro t ht htx
      rcases List.mem_cons.mp ht with h | h
      · subst h
        exact le_trans (le_of_lt (hcd d (List.mem_cons_self d rest)))
          (hres.2.2 d (List.mem_cons_self d rest) hxd)
      · exact hres.2.2 t h htx
    · simp only [revTabScan, if_neg hxd]
      refine ⟨List.mem_cons_self c (d :: rest), hc, ?_⟩
      intro t ht htx
      rcases List.mem_cons.mp ht with h | h
      · exact le_of_eq h
      · exfalso
        rw [List.sorted_cons] at hsd
        have hdt : d ≤ t := by
          rcases List.mem_cons.mp h with h2 | h2
          · exact le_of_eq h2.symm
          · exact le_of_lt (hsd.1 t h2)
        omega

/-- C6: on a strictly sorted tab-stop list, `GetReverseTab` returns
`(0, pos.y)` when `pos.x = 0`, the list is empty, or no stop is strictly less
than `pos.x`; otherwise it returns `(g, pos.y)` for the greatest stop `g`
strictly less than `pos.x`. -/
theorem C6_getReverseTab_greatest_below (tabs : List Int) (pos : Int × Int)
    (hs : tabs.Sorted (· < ·)) :
    ((pos.1 = 0 ∨ tabs = [] ∨ (∀ t ∈ tabs, ¬ t < pos.1)) →
        GetReverseTab tabs pos = (0, pos.2)) ∧
    (pos.1 ≠ 0 → ∀ g ∈ tabs, g < pos.1 → (∀ t ∈ tabs, t < pos.1 → t ≤ g) →
        GetReverseTab tabs pos = (g, pos.2)) := by
  constructor
  · intro h
    match tabs, hs with
    | [], _ => rfl
    | t :: rest, hs =>
      rcases h with h | h | h
      · simp only [GetReverseTab, if_pos (Or.inl h)]
      · exact absurd h (List.cons_ne_nil t rest)
      · have ht : t ≥ pos.1 := by
          have := h t (List.mem_cons_self t rest)
          omega
        simp only [GetReverseTab, if_pos (Or.inr ht)]
  · intro hx g hg hgx hmax
    match tabs, hs with
    | t :: rest, hs =>
      have htg : t ≤ g := by
        rcases List.mem_cons.mp hg with h | h
        · exact le_of_eq h.symm
        · rw [List.sorted_cons] at hs
          exact le_of_lt (hs.1 g h)
      have hcond : ¬ (pos.1 = 0 ∨ t ≥ pos.1) := by
        push_neg
        exact ⟨hx, by omega⟩
      simp only [GetReverseTab, if_neg hcond]
      have hscan := revTabScan_greatest pos.1 rest t hs (by omega)
      have h1 : revTabScan pos.1 (t :: rest) ≤ g :=
        hmax _ hscan.1 hscan.2.1
      have h2 : g ≤ revTabScan pos.1 (t :: rest) :=
        hscan.2.2 g hg hgx
      have : revTabScan pos.1 (t :: rest) = g := le_antisymm h1 h2
      rw [this]

/-- C6 witness: with stops `{4, 8, 12}`, `reverseTab (10, 0) = (8, 0)`. -/
theorem C6_getReverseTab_witness : GetReverseTab [4, 8, 12] (10, 0) = (8, 0) :=
  (C6_getReverseTab_greatest_below [4, 8, 12] (10, 0) (by decide)).2
    (by decide) 8 (by decide) (by decide) (by decide)

/-- C7: `s_CalculateScrollbarVisibility` computes exactly the two-branch
reference algorithm of the specification, and the bars become visible in no
other way: the horizontal bar is visible iff the buffer is wider than the
client, or the first test fails but the vertical bar steals enough width that
the re-test fires; symmetrically for the vertical bar. -/
theorem C7_scrollbarVisibility_two_branch
    (clientW clientH bufX bufY fontX fontY scrollH scrollV : Int) :
    s_CalculateScrollbarVisibility clientW clientH bufX bufY fontX fontY scrollH scrollV =
      scrollbarVisibilitySpec clientW clientH bufX bufY fontX fontY scrollH scrollV ∧
    ((s_CalculateScrollbarVisibility clientW clientH bufX bufY fontX fontY scrollH scrollV).1 = true ↔
      (bufX * fontX > clientW ∨
        (bufX * fontX ≤ clientW ∧ bufY * fontY > clientH ∧
          bufX * fontX > clientW - scrollV))) ∧
    ((s_CalculateScrollbarVisibility clientW clientH bufX bufY fontX fontY scrollH scrollV).2 = true ↔
      ((bufX * fontX > clientW ∧ bufY * fontY > clientH - scrollH) ∨
        (bufX * fontX ≤ clientW ∧ bufY * fontY > clientH))) := by
  refine ⟨rfl, ?_, ?_⟩ <;>
    simp only [s_CalculateScrollbarVisibility] <;>
    split_ifs with h1 h2 <;>
    simp_all

/-- C3: on the fallback path of `ResizeWithReflow`, whenever the claim's
adjusted newline count is non-negative and the cursor sat at least one column
past the last character, the code emits exactly
`oldCursor.y - oldLastChar.y - adjustment` `NewlineCursor` calls (where the
adjustment is 1 if the new buffer's last row is soft-wrapped, otherwise 1 if
the old last row was soft-wrapped, otherwise 0) and exactly
`oldCursor.x - oldLastChar.x - 1` `IncrementCursor` calls. -/
theorem C3_reflow_cursor_fallback (cOldCursorPos cOldLastChar : Int × Int)
    (newW oldW : Bool)
    (hN : 0 ≤ cOldCursorPos.2 - cOldLastChar.2 -
      (if newW then 1 else if oldW then 1 else 0))
    (hI : 1 ≤ cOldCursorPos.1 - cOldLastChar.1) :
    ((reflowCursorFallback cOldCursorPos cOldLastChar newW oldW).1 : Int) =
      cOldCursorPos.2 - cOldLastChar.2 -
        (if newW then 1 else if oldW then 1 else 0) ∧
    ((reflowCursorFallback cOldCursorPos cOldLastChar newW oldW).2 : Int) =
      cOldCursorPos.1 - cOldLastChar.1 - 1 := by
  simp only [reflowCursorFallback]
  cases newW <;> cases oldW <;> simp_all <;> omega

/-- C3 witness: old cursor `(5, 7)`, old last character `(2, 4)`, new last row
soft-wrapped: 2 newlines and 2 increments are emitted. -/
theorem C3_reflow_cursor_fallback_witness :
    ((reflowCursorFallback (5, 7) (2, 4) true false).1 : Int) = 7 - 4 - 1 ∧
    ((reflowCursorFallback (5, 7) (2, 4) true false).2 : Int) = 5 - 2 - 1 := by
  have h := C3_reflow_cursor_fallback (5, 7) (2, 4) true false (by decide) (by decide)
  simpa using h

/-! ### Viewport geometry

State for the viewport-mutating operations: the stored buffer size
`_coordScreenBufferSize` and the viewport rectangle `_srBufferViewport`. -/

/-- Buffer size plus viewport, the state mutated by `SetViewportRect`,
`SetViewportOrigin` and `_InternalSetViewportSize`. -/
structure ViewportState where
  cols : Int
  rows : Int
  viewport : SmallRect
deriving DecidableEq, Repr

/-- Model of `SCREEN_INFORMATION::SetViewportRect` (screenInfo.cpp:702):
if the request equals the current viewport, success without change; otherwise
a negative `Left`/`Top` shifts the rectangle right/down (preserving size), and
a `Right`/`Bottom` at or beyond the buffer dimension is set to the dimension
itself (`coordScreenBufferSize.X`/`.Y`), after which the rectangle is
stored. -/
def SetViewportRect (prcNewViewport : SmallRect) (st : ViewportState) :
    NtStatus × ViewportState :=
  if prcNewViewport = st.viewport then (.success, st)
  else
    let r1 := if prcNewViewport.left < 0 then
        { prcNewViewport with
          right := prcNewViewport.right - prcNewViewport.left, left := 0 }
      else prcNewViewport
    let r2 := if r1.top < 0 then { r1 with bottom := r1.bottom - r1.top, top := 0 }
      else r1
    let r3 := if r2.right ≥ st.cols then { r2 with right := st.cols } else r2
    let r4 := if r3.bottom ≥ st.rows then { r3 with bottom := st.rows } else r3
    (.success, { st with viewport := r4 })

/-- Model of `SCREEN_INFORMATION::SetViewportOrigin` (screenInfo.cpp:630).
`activeWithWindow` models `IsActiveScreenBuffer()` with a non-null window, in
which case the new origin is handed to the window instead of being stored
directly on this screen buffer. -/
def SetViewportOrigin (fAbsolute : Bool) (coordWindowOrigin : Int × Int)
    (activeWithWindow : Bool) (st : ViewportState) : NtStatus × ViewportState :=
  let windowSizeX := st.viewport.right - st.viewport.left + 1
  let windowSizeY := st.viewport.bottom - st.viewport.top + 1
  if ¬fAbsolute ∧ coordWindowOrigin = (0, 0) then (.success, st)
  else if fAbsolute ∧ coordWindowOrigin = (st.viewport.left, st.viewport.top) then
    (.success, st)
  else
    let newLeft := if fAbsolute then coordWindowOrigin.1
      else st.viewport.left + coordWindowOrigin.1
    let newTop := if fAbsolute then coordWindowOrigin.2
      else st.viewport.top + coordWindowOrigin.2
    let newWindow : SmallRect :=
      ⟨newLeft, newTop, newLeft + windowSizeX - 1, newTop + windowSizeY - 1⟩
    if newWindow.left < 0 ∨ newWindow.top < 0 ∨ newWindow.right < 0 ∨
        newWindow.bottom < 0 ∨ newWindow.right ≥ st.cols ∨
        newWindow.bottom ≥ st.rows then
      (.invalidParameter, st)
    else if activeWithWindow then (.success, st)
    else (.success, { st with viewport := newWindow })

/-- The closing clamp of `_InternalSetViewportSize` (screenInfo.cpp:1077-1093):
shift a negative `Left`/`Top` to zero (adjusting `Right`/`Bottom`), then cap
`Right`/`Bottom` at the final buffer indices `cols - 1`/`rows - 1`. -/
def viewportClampFinal (cols rows : Int) (v : SmallRect) : SmallRect :=
  let v1 := if v.left < 0 then { v with right := v.right - v.left, left := 0 } else v
  let v2 := if v1.top < 0 then { v1 with bottom := v1.bottom - v1.top, top := 0 }
    else v1
  { v2 with right := min v2.right (cols - 1), bottom := min v2.bottom (rows - 1) }

/-- The per-axis adjustment section of `_InternalSetViewportSize`
(screenInfo.cpp:973-1075), before the closing clamp.  `coordValidEnd` models
the result of `Selection::GetValidAreaBoundaries` (the last character
displayed, an external input to this routine). -/
def internalViewportAdjust (pcoordSize : Int × Int)
    (fResizeFromTop fResizeFromLeft : Bool) (coordValidEnd : Int × Int)
    (st : ViewportState) : SmallRect :=
  let deltaX := pcoordSize.1 - (st.viewport.right - st.viewport.left + 1)
  let deltaY := pcoordSize.2 - (st.viewport.bottom - st.viewport.top + 1)
  let v0 := st.viewport
  let v1 : SmallRect :=
    if fResizeFromLeft then
      let sLeftProposed := v0.left - deltaX
      if sLeftProposed ≥ 0 then { v0 with left := v0.left - deltaX }
      else { v0 with left := 0, right := v0.right + (0 - sLeftProposed) }
    else
      let sRightProposed := v0.right + deltaX
      if sRightProposed ≤ st.cols - 1 then { v0 with right := v0.right + deltaX }
      else { v0 with
             right := st.cols - 1,
             left := v0.left - (sRightProposed - (st.cols - 1)) }
  let v2 : SmallRect :=
    if fResizeFromTop then
      let sTopProposed := v1.top - deltaY
      if sTopProposed ≥ 0 then
        if v1.top > 0 then { v1 with top := v1.top - deltaY }
        else { v1 with bottom := v1.bottom + deltaY }
      else { v1 with top := 0, bottom := v1.bottom + (0 - sTopProposed) }
    else
      let sBottomProposed := v1.bottom + deltaY
      if sBottomProposed ≤ st.rows - 1 then
        if v1.bottom + deltaY < coordValidEnd.2 then
          let t1 := v1.top - deltaY
          if t1 < 0 then { v1 with top := 0, bottom := v1.bottom + (0 - t1) }
          else { v1 with top := t1 }
        else { v1 with bottom := v1.bottom + deltaY }
      else { v1 with
             bottom := st.rows - 1,
             top := v1.top - (sBottomProposed - (st.rows - 1)) }
  v2

/-- Model of `SCREEN_INFORMATION::_InternalSetViewportSize`
(screenInfo.cpp:966): the per-axis adjustment followed by the closing
clamp, stored as the new viewport. -/
def InternalSetViewportSize (pcoordSize : Int × Int)
    (fResizeFromTop fResizeFromLeft : Bool) (coordValidEnd : Int × Int)
    (st : ViewportState) : ViewportState :=
  let v2 := internalViewportAdjust pcoordSize fResizeFromTop fResizeFromLeft coordValidEnd st
  { st with viewport := viewportClampFinal st.cols st.rows v2 }

/-- A viewport-mutating operation, for stating the containment invariant over
arbitrary sequences. -/
inductive ViewportOp where
  | setRect (r : SmallRect)
  | setOrigin (fAbsolute : Bool) (origin : Int × Int) (activeWithWindow : Bool)
  | setSize (size : Int × Int) (fromTop fromLeft : Bool) (validEnd : Int × Int)

/-- Applies one viewport-mutating operation to the state (the status result
is irrelevant for the containment invariant). -/
def applyViewportOp (st : ViewportState) (op : ViewportOp) : ViewportState :=
  match op with
  | .setRect r => (SetViewportRect r st).2
  | .setOrigin a o w => (SetViewportOrigin a o w st).2
  | .setSize s t l e => InternalSetViewportSize s t l e st

/-- The containment invariant exactly as the specification states it:
`0 ≤ left ≤ right < cols` and `0 ≤ top ≤ bottom < rows`. -/
def viewportContained (st : ViewportState) : Prop :=
  0 ≤ st.viewport.left ∧ st.viewport.left ≤ st.viewport.right ∧
    st.viewport.right < st.cols ∧
  0 ≤ st.viewport.top ∧ st.viewport.top ≤ st.viewport.bottom ∧
    st.viewport.bottom < st.rows

instance (st : ViewportState) : Decidable (viewportContained st) := by
  unfold viewportContained
  infer_instance

/-- The weaker containment that the code actually maintains:
left and top are non-negative, right is at most `cols` (not `cols - 1`) and
bottom is at most `rows` (not `rows - 1`). -/
def viewportWeaklyContained (st : ViewportState) : Prop :=
  0 ≤ st.viewport.left ∧ 0 ≤ st.viewport.top ∧
  st.viewport.right ≤ st.cols ∧ st.viewport.bottom ≤ st.rows

instance (st : ViewportState) : Decidable (viewportWeaklyContained st) := by
  unfold viewportWeaklyContained
  infer_instance

/-- The closing clamp of `_InternalSetViewportSize` establishes the weak
containment bounds for any incoming rectangle. -/
theorem viewportClampFinal_weak (cols rows : Int) (v : SmallRect) :
    0 ≤ (viewportClampFinal cols rows v).left ∧
    0 ≤ (viewportClampFinal cols rows v).top ∧
    (viewportClampFinal cols rows v).right ≤ cols ∧
    (viewportClampFinal cols rows v).bottom ≤ rows := by
  simp only [viewportClampFinal]
  split_ifs <;> simp_all

/-- Every single viewport-mutating operation preserves the weak containment
invariant. -/
theorem applyViewportOp_weak (op : ViewportOp) (st : ViewportState)
    (h : viewportWeaklyContained st) :
    viewportWeaklyContained (applyViewportOp st op) := by
  cases op with
  | setRect r =>
    simp only [applyViewportOp, SetViewportRect]
    split_ifs <;> simp_all [viewportWeaklyContained] <;> omega
  | setOrigin a o w =>
    simp only [applyViewportOp, SetViewportOrigin]
    split_ifs <;> simp_all [viewportWeaklyContained] <;> omega
  | setSize sz t l e =>
    simp only [applyViewportOp, InternalSetViewportSize, viewportWeaklyContained]
    exact viewportClampFinal_weak st.cols st.rows _

/-- C1 (counterexample): starting from a fully valid state — buffer `(80, 25)`
with viewport `(0,0)-(79,24)` — a single `SetViewportRect` with requested
right edge `100` stores `right = 80 = cols`, not `cols - 1 = 79`: the claimed
containment `right < cols` is violated and the clip is to `cols`, not
`cols - 1`. -/
theorem C1_viewport_containment_counterexample :
    viewportContained ⟨80, 25, ⟨0, 0, 79, 24⟩⟩ ∧
    (SetViewportRect ⟨0, 0, 100, 10⟩ ⟨80, 25, ⟨0, 0, 79, 24⟩⟩).1 = .success ∧
    (SetViewportRect ⟨0, 0, 100, 10⟩ ⟨80, 25, ⟨0, 0, 79, 24⟩⟩).2.viewport =
      ⟨0, 0, 80, 10⟩ ∧
    ¬ viewportContained (SetViewportRect ⟨0, 0, 100, 10⟩ ⟨80, 25, ⟨0, 0, 79, 24⟩⟩).2 ∧
    (SetViewportRect ⟨0, 0, 100, 10⟩ ⟨80, 25, ⟨0, 0, 79, 24⟩⟩).2.viewport.right ≠ 80 - 1 := by
  refine ⟨by decide, rfl, rfl, by decide, by decide⟩

/-- C1 (amended): starting from a state satisfying the weak containment
`0 ≤ left`, `0 ≤ top`, `right ≤ cols`, `bottom ≤ rows`, every sequence of
viewport-mutating operations preserves that weak containment (the code clips
`right`/`bottom` to `cols`/`rows`, not `cols - 1`/`rows - 1`, so `right = cols`
is reachable and `right < cols` is not invariant); moreover `SetViewportRect`
on a changed rectangle shifts a negative `left`/`top` right/down preserving
the size of the shifted rectangle and clips `right`/`bottom` to
`cols`/`rows`. -/
theorem C1_viewport_weak_containment (ops : List ViewportOp) (st : ViewportState)
    (h : viewportWeaklyContained st) :
    viewportWeaklyContained (ops.foldl applyViewportOp st) ∧
    (∀ (r : SmallRect) (s : ViewportState), r ≠ s.viewport →
      (SetViewportRect r s).2.viewport =
        ⟨max r.left 0, max r.top 0, min (r.right - min r.left 0) s.cols,
          min (r.bottom - min r.top 0) s.rows⟩ ∧
      (r.right - min r.left 0) - max r.left 0 = r.right - r.left ∧
      (r.bottom - min r.top 0) - max r.top 0 = r.bottom - r.top) := by
  constructor
  · induction ops generalizing st with
    | nil => exact h
    | cons op rest ih =>
      exact ih (applyViewportOp st op) (applyViewportOp_weak op st h)
  · intro r s hne
    refine ⟨?_, by omega, by omega⟩
    simp only [SetViewportRect, if_neg hne]
    split_ifs <;> refine SmallRect.ext ?_ ?_ ?_ ?_ <;> simp_all <;> omega

/-- C1 witness: a concrete three-operation sequence from a valid `(80, 25)`
state lands in a weakly contained state. -/
theorem C1_viewport_weak_containment_witness :
    viewportWeaklyContained
      (List.foldl applyViewportOp ⟨80, 25, ⟨0, 0, 79, 24⟩⟩
        [ViewportOp.setRect ⟨-5, -3, 100, 30⟩,
         ViewportOp.setSize (5, 5) false false (0, 0),
         ViewportOp.setOrigin true (2, 3) false]) :=
  (C1_viewport_weak_containment
    [ViewportOp.setRect ⟨-5, -3, 100, 30⟩,
     ViewportOp.setSize (5, 5) false false (0, 0),
     ViewportOp.setOrigin true (2, 3) false]
    ⟨80, 25, ⟨0, 0, 79, 24⟩⟩ (by decide)).1

/-! ### Traditional resize

Model of `SCREEN_INFORMATION::ResizeTraditional` (screenInfo.cpp:1416).
The text buffer state keeps the physical row array (rotated via
`firstRowIndex`), the stored buffer size and the cursor.  A row keeps its
character cells, DBCS attribute bytes, `Left`/`Right` bounds, `sRowId`, and
the width covered by its attribute row (`attrWidth`, the observable that
`AttrRow::Initialize`/`AttrRow::Resize` mutate; the run contents are not
inspected by the claims settled here).  Heap allocation is modelled by an
oracle `alloc : Nat → Bool` consulted in the order the source allocates:
index 0 is `TextRows`, index 1 is `TextRowsA`, index 2 is the `ROW` array
`Temp` (only when the row count changes), the following indices are the
`AttrRow::Initialize` calls for newly added rows, and the remaining indices
are the `AttrRow::Resize` calls (only when the width changes).
`TEXT_BUFFER_INFO::FreeExtraAttributeRows` only releases storage of rows that
are being dropped, so it is the identity on the retained rows of this
model. -/

/-- One `ROW` of the text buffer. -/
structure CRow where
  chars : List Int
  kattrs : List Int
  left : Int
  right : Int
  rowId : Int
  attrWidth : Int
deriving DecidableEq, Repr

/-- The text-buffer state mutated by `ResizeTraditional`: physical row array,
circular first-row index, stored buffer size, cursor position. -/
structure TextBufferState where
  rows : List CRow
  firstRowIndex : Nat
  bufX : Int
  bufY : Int
  cursor : Int × Int
deriving DecidableEq, Repr

/-- The `(USHORT)` cast in the size guard of `ResizeTraditional`
(screenInfo.cpp:1426): a 16-bit reinterpretation of the `SHORT` value. -/
def ushortCast (x : Int) : Int := x % 65536

/-- The `TopRow` computation (screenInfo.cpp:1448-1452): if the new row count
does not exceed the cursor row, shift so the cursor row is retained. -/
def resizeTopRow (newY cursorY : Int) : Int :=
  if newY ≤ cursorY then cursorY - newY + 1 else 0

/-- The `TopRowIndex` computation (screenInfo.cpp:1453): the rotation offset
within the circular row array. -/
def resizeTopRowIndex (firstRowIndex : Nat) (topRow oldY : Int) : Nat :=
  (((firstRowIndex : Int) + topRow) % oldY).toNat

/-- A fresh `ROW` of `Temp` past the old row count, after its
`AttrRow::Initialize(newX, attributes)` (screenInfo.cpp:1490-1492); its other
fields are filled later by the second fill loop. -/
def freshRow (newX : Int) (i : Nat) : CRow :=
  { chars := [], kattrs := [], left := 0, right := 0, rowId := (i : Int),
    attrWidth := newX }

/-- The staged `Temp` row array (screenInfo.cpp:1461-1479): copy
`NumToCopy = min(oldY - topRowIndex, newY)` rows starting at `topRowIndex`,
wrap-copy `NumToCopy2 = min(topRowIndex, newY - NumToCopy)` rows from index 0
(only when `topRowIndex ≠ 0` and the first copy did not fill the array), and
append freshly initialised rows when growing. -/
def stagedRows (rows : List CRow) (topRowIndex oldYn newYn : Nat) (newX : Int) :
    List CRow :=
  let numToCopy := min (oldYn - topRowIndex) newYn
  let firstPart := (rows.drop topRowIndex).take numToCopy
  let secondPart :=
    if topRowIndex ≠ 0 ∧ numToCopy ≠ newYn then
      rows.take (min topRowIndex (newYn - numToCopy))
    else []
  let freshPart :=
    if oldYn < newYn then
      (List.range (newYn - oldYn)).map (fun j => freshRow newX (oldYn + j))
    else []
  firstPart ++ secondPart ++ freshPart

/-- Whether `n` consecutive allocations starting at index `k` all succeed. -/
def allocRange (alloc : Nat → Bool) (k n : Nat) : Bool :=
  (List.range n).all (fun j => alloc (k + j))

/-- The row-array staging block of `ResizeTraditional`
(screenInfo.cpp:1454-1505), run only when the row count changes: allocate
`Temp` (oracle index `k0`), build it from the rotated old rows, initialise
attribute rows for added rows (oracle indices `k0+1, ...`); on any allocation
failure everything staged is freed and `none` is returned, leaving the caller
state untouched.  On success, returns the staged array and the next oracle
index. -/
def stageRowArray (alloc : Nat → Bool) (k0 : Nat) (rows : List CRow)
    (topRowIndex oldYn newYn : Nat) (newX : Int) : Option (List CRow × Nat) :=
  if ¬ alloc k0 then none
  else if oldYn < newYn then
    if allocRange alloc (k0 + 1) (newYn - oldYn) then
      some (stagedRows rows topRowIndex oldYn newYn newX, k0 + 1 + (newYn - oldYn))
    else none
  else some (stagedRows rows topRowIndex oldYn newYn newX, k0 + 1)

/-- The per-row character/DBCS copy of the first fill loop
(screenInfo.cpp:1510-1538) applied to row `i < LimitY`: copy `LimitX` cells
into the new flat storage, pad columns `[oldX, newX)` with spaces (zeros for
the DBCS bytes), clamp `Right` to `newX`, renumber `sRowId` to `i`. -/
def charCopyRow (oldX newX : Int) (i : Nat) (r : CRow) : CRow :=
  { chars := r.chars.take (min newX oldX).toNat ++
      List.replicate (newX - oldX).toNat 32,
    kattrs := r.kattrs.take (min newX oldX).toNat ++
      List.replicate (newX - oldX).toNat 0,
    left := r.left,
    right := if r.right > newX then newX else r.right,
    rowId := (i : Int),
    attrWidth := r.attrWidth }

/-- The second fill loop (screenInfo.cpp:1540-1564) applied to row
`i ∈ [LimitY, newY)`: all spaces, `Left = newX`, `Right = 0` (canonical empty
state), `sRowId = i`; the attribute row set up during staging is kept. -/
def fillRow (newX : Int) (i : Nat) (r : CRow) : CRow :=
  { chars := List.replicate newX.toNat 32,
    kattrs := List.replicate newX.toNat 0,
    left := newX, right := 0, rowId := (i : Int),
    attrWidth := r.attrWidth }

/-- Both fill loops over the (already staged) row array. -/
def fillPhase (oldX newX : Int) (limY : Nat) (rows : List CRow) : List CRow :=
  rows.enum.map (fun p => if p.1 < limY then charCopyRow oldX newX p.1 p.2
    else fillRow newX p.1 p.2)

/-- The trailing `AttrRow::Resize` loop (screenInfo.cpp:1574-1586), run only
when the width changes, consulting the oracle per row: on a failure it breaks
immediately, leaving that row and the following ones unresized while the
earlier rows already carry the new width. -/
def attrResizeLoop (alloc : Nat → Bool) (k : Nat) (newX : Int) :
    Nat → List CRow → Bool × List CRow
  | 0, rows => (true, rows)
  | _ + 1, [] => (true, [])
  | n + 1, r :: rest =>
    if alloc k then
      let res := attrResizeLoop alloc (k + 1) newX n rest
      (res.1, { r with attrWidth := newX } :: res.2)
    else (false, r :: rest)

/-- The tail of `ResizeTraditional` after a successfully staged row array:
the two fill loops into the new flat storage, installation of the new storage
and buffer size (`SetCoordBufferSize`, screenInfo.cpp:1566-1570), and the
trailing attribute-resize loop when the width changes. -/
def resizeInstall (alloc : Nat → Bool) (newX newY : Int) (st : TextBufferState)
    (rows2 : List CRow) (k2 : Nat) : NtStatus × TextBufferState :=
  let limY : Nat := (min newY st.bufY).toNat
  let rows3 := fillPhase st.bufX newX limY rows2
  let st3 : TextBufferState :=
    { rows := rows3,
      firstRowIndex := if newY ≠ st.bufY then 0 else st.firstRowIndex,
      bufX := newX, bufY := newY, cursor := st.cursor }
  if newX ≠ st.bufX then
    let res := attrResizeLoop alloc k2 newX limY rows3
    (if res.1 then .success else .noMemory, { st3 with rows := res.2 })
  else (.success, st3)

/-- The staging prefix of `ResizeTraditional`: `none` exactly when one of the
pre-installation allocations fails (flat character array, flat DBCS array,
`ROW` array, attribute rows for added rows); `some` carries the staged row
array and the next allocation index. -/
def resizeStage (alloc : Nat → Bool) (newX newY : Int) (st : TextBufferState) :
    Option (List CRow × Nat) :=
  if newY ≠ st.bufY then
    stageRowArray alloc 2 st.rows
      (resizeTopRowIndex st.firstRowIndex (resizeTopRow newY st.cursor.2) st.bufY)
      st.bufY.toNat newY.toNat newX
  else some (st.rows, 2)

/-- Model of `SCREEN_INFORMATION::ResizeTraditional` (screenInfo.cpp:1416),
including `SetCoordBufferSize` installing the new size
(screenInfo.cpp:1570). -/
def ResizeTraditional (alloc : Nat → Bool) (coordNewScreenSize : Int × Int)
    (st : TextBufferState) : NtStatus × TextBufferState :=
  let newX := coordNewScreenSize.1
  let newY := coordNewScreenSize.2
  if ushortCast newX ≥ 0x7FFF ∨ ushortCast newY ≥ 0x7FFF then
    (.invalidParameter, st)
  else if ¬ alloc 0 then (.noMemory, st)
  else if ¬ alloc 1 then (.noMemory, st)
  else
    match resizeStage alloc newX newY st with
    | none => (.noMemory, st)
    | some (rows2, k2) => resizeInstall alloc newX newY st rows2 k2

/-- Whatever the attribute-resize loop does, `resizeInstall` has already
installed the new buffer size. -/
theorem resizeInstall_bufSize (alloc : Nat → Bool) (newX newY : Int)
    (st : TextBufferState) (rows2 : List CRow) (k2 : Nat) :
    (resizeInstall alloc newX newY st rows2 k2).2.bufX = newX ∧
    (resizeInstall alloc newX newY st rows2 k2).2.bufY = newY := by
  simp only [resizeInstall]
  split_ifs <;> simp

/-- A 10 × 5 text buffer whose row `j` is filled with the character code
`100 + j`, cursor on `(0, 4)`, used as the concrete buffer of the resize
scenarios. -/
def exampleRow (j : Nat) : CRow :=
  { chars := List.replicate 10 (100 + (j : Int)),
    kattrs := List.replicate 10 0,
    left := 0, right := 10, rowId := (j : Int), attrWidth := 10 }

/-- Concrete `(10, 5)` buffer state with cursor `(0, 4)`. -/
def exampleBuffer : TextBufferState :=
  { rows := [exampleRow 0, exampleRow 1, exampleRow 2, exampleRow 3, exampleRow 4],
    firstRowIndex := 0, bufX := 10, bufY := 5, cursor := (0, 4) }

/-- C2 (counterexample): widening the `(10, 5)` buffer to `(12, 5)` with the
allocation oracle failing at the first `AttrRow::Resize` call (index 2)
returns `NoMemory`, yet the live buffer has been mutated: the stored width is
already 12 and the state differs from the original — and with the failure one
allocation later, the first row's attribute row is already resized to 12
while the others still carry 10, a half-mutated buffer visible to the
caller. -/
theorem C2_resizeTraditional_counterexample :
    (ResizeTraditional (fun n => decide (n < 2)) (12, 5) exampleBuffer).1 = .noMemory ∧
    (ResizeTraditional (fun n => decide (n < 2)) (12, 5) exampleBuffer).2.bufX = 12 ∧
    (ResizeTraditional (fun n => decide (n < 2)) (12, 5) exampleBuffer).2 ≠ exampleBuffer ∧
    (ResizeTraditional (fun n => decide (n < 3)) (12, 5) exampleBuffer).1 = .noMemory ∧
    (ResizeTraditional (fun n => decide (n < 3)) (12, 5) exampleBuffer).2.rows.map
      CRow.attrWidth = [12, 10, 10, 10, 10] := by
  decide

/-- C2 (amended): when `ResizeTraditional` returns `NoMemory`, either the
failure happened during staging (flat character/DBCS arrays, row array, new
attribute rows) and the buffer state is exactly the state before the call, or
the failure happened in the trailing per-row `AttrRow::Resize` loop, after
the new storage and buffer size were already installed. -/
theorem C2_resizeTraditional_noMemory_dichotomy (alloc : Nat → Bool)
    (sz : Int × Int) (st : TextBufferState)
    (h : (ResizeTraditional alloc sz st).1 = .noMemory) :
    (ResizeTraditional alloc sz st).2 = st ∨
    ((ResizeTraditional alloc sz st).2.bufX = sz.1 ∧
     (ResizeTraditional alloc sz st).2.bufY = sz.2) := by
  clear h
  simp only [ResizeTraditional]
  split_ifs with hg h0 h1
  all_goals try (left; rfl)
  rcases hs : resizeStage alloc sz.1 sz.2 st with _ | ⟨rows2, k2⟩
  · left; rfl
  · exact Or.inr (resizeInstall_bufSize alloc sz.1 sz.2 st rows2 k2)

/-- C2 witness: a run in which every allocation fails leaves the example
buffer exactly as it was. -/
theorem C2_resizeTraditional_noMemory_dichotomy_witness :
    (ResizeTraditional (fun _ => false) (12, 5) exampleBuffer).2 = exampleBuffer ∨
    ((ResizeTraditional (fun _ => false) (12, 5) exampleBuffer).2.bufX = 12 ∧
     (ResizeTraditional (fun _ => false) (12, 5) exampleBuffer).2.bufY = 5) :=
  C2_resizeTraditional_noMemory_dichotomy (fun _ => false) (12, 5) exampleBuffer
    (by decide)

/-- The net per-row effect of `ResizeTraditional` on a retained row `i`:
the character/DBCS copy with padding, plus the attribute-row resize when the
width changes. -/
def traditionalRowTransform (oldX newX : Int) (i : Nat) (r : CRow) : CRow :=
  let c := charCopyRow oldX newX i r
  if newX ≠ oldX then { c with attrWidth := newX } else c

/-- Modelled from the spec: the cursor-position adjustment that completes a
traditional resize is not in `src/` (it lives with the API-level callers of
`ResizeScreenBuffer`; `ResizeTraditional` itself only rotates the rows and
never writes the cursor).  Spec §4.4 requires "preserving the cursor cell"
and scenario 2 states that after a `(10,5) → (10,3)` resize with cursor
`(0,4)` the "cursor stays at `(0,2)`": the cursor keeps its column and its
row index drops by the rotation offset `topRow`. -/
def cursorAfterTraditionalResize (cursor : Int × Int) (newY : Int) : Int × Int :=
  (cursor.1, cursor.2 - resizeTopRow newY cursor.2)

/-- Reading a retained entry of the staged row array: entry `k` of `Temp` is
the physical row `(topRowIndex + k) % oldY` of the old array. -/
theorem stagedRows_get (rows : List CRow) (T oldYn newYn : Nat) (newX : Int)
    (hLen : rows.length = oldYn) (hT : T < oldYn) (k : Nat)
    (hk : k < min oldYn newYn) :
    (stagedRows rows T oldYn newYn newX)[k]? = rows[(T + k) % oldYn]? := by
  have h1 : ((rows.drop T).take (min (oldYn - T) newYn)).length =
      min (oldYn - T) newYn := by
    rw [List.length_take, List.length_drop, hLen]
    omega
  have h2 : (if T ≠ 0 ∧ min (oldYn - T) newYn ≠ newYn then
      rows.take (min T (newYn - min (oldYn - T) newYn)) else ([] : List CRow)).length =
      min oldYn newYn - min (oldYn - T) newYn := by
    split_ifs with hc
    · rw [List.length_take, hLen]
      omega
    · simp only [List.length_nil]
      omega
  simp only [stagedRows]
  rw [List.getElem?_append, List.length_append, h1, h2, if_pos (by omega)]
  rw [List.getElem?_append, h1]
  by_cases hcase : k < min (oldYn - T) newYn
  · rw [if_pos hcase, List.getElem?_take, if_pos hcase, List.getElem?_drop,
      Nat.mod_eq_of_lt (by omega)]
  · rw [if_neg hcase]
    have hT0 : T ≠ 0 := by omega
    have hne : min (oldYn - T) newYn ≠ newYn := by omega
    rw [if_pos ⟨hT0, hne⟩, List.getElem?_take, if_pos (by omega)]
    have hidx : (T + k) % oldYn = k - min (oldYn - T) newYn := by
      rw [Nat.mod_eq_sub_mod (by omega), Nat.mod_eq_of_lt (by omega)]
      omega
    rw [hidx]

/-- When every allocation succeeds, the staging block returns the staged row
array. -/
theorem stageRowArray_of_allocTrue (alloc : Nat → Bool)
    (hA : ∀ n, alloc n = true) (k0 : Nat) (rows : List CRow)
    (T oldYn newYn : Nat) (newX : Int) :
    ∃ k2, stageRowArray alloc k0 rows T oldYn newYn newX =
      some (stagedRows rows T oldYn newYn newX, k2) := by
  simp only [stageRowArray, hA, allocRange]
  by_cases h : oldYn < newYn
  · exact ⟨k0 + 1 + (newYn - oldYn), by simp [h, hA]⟩
  · exact ⟨k0 + 1, by simp [h]⟩

/-- Reading a row of the fill phase below `LimitY`: the character copy of the
staged row. -/
theorem fillPhase_get (oldX newX : Int) (limY : Nat) (rows : List CRow)
    (k : Nat) (hk : k < limY) :
    (fillPhase oldX newX limY rows)[k]? =
      rows[k]?.map (charCopyRow oldX newX k) := by
  simp only [fillPhase, List.getElem?_map, List.getElem?_enum]
  cases rows[k]? <;> simp [hk]

/-- When every allocation succeeds, the attribute-resize loop reports
success. -/
theorem attrResizeLoop_fst_of_allocTrue (alloc : Nat → Bool) (newX : Int)
    (hA : ∀ n, alloc n = true) :
    ∀ (rows : List CRow) (n k : Nat), (attrResizeLoop alloc k newX n rows).1 = true := by
  intro rows
  induction rows with
  | nil => intro n k; cases n <;> simp [attrResizeLoop]
  | cons r rest ih =>
    intro n k
    cases n with
    | zero => simp [attrResizeLoop]
    | succ m => simp [attrResizeLoop, hA, ih m (k + 1)]

/-- When every allocation succeeds, the attribute-resize loop rewrites the
attribute width of exactly the first `n` rows. -/
theorem attrResizeLoop_get_of_allocTrue (alloc : Nat → Bool) (newX : Int)
    (hA : ∀ n, alloc n = true) :
    ∀ (rows : List CRow) (n k j : Nat),
      (attrResizeLoop alloc k newX n rows).2[j]? =
        if j < n then rows[j]?.map (fun r => { r with attrWidth := newX })
        else rows[j]? := by
  intro rows
  induction rows with
  | nil =>
    intro n k j
    cases n <;> simp [attrResizeLoop]
  | cons r rest ih =>
    intro n k j
    cases n with
    | zero => simp [attrResizeLoop]
    | succ m =>
      simp only [attrResizeLoop, hA, if_true]
      cases j with
      | zero => simp
      | succ i =>
        simp only [List.getElem?_cons_succ]
        rw [ih m (k + 1) i]
        by_cases hi : i < m
        · rw [if_pos hi, if_pos (by omega)]
        · rw [if_neg hi, if_neg (by omega)]

/-- When every allocation succeeds, `resizeInstall` reports success. -/
theorem resizeInstall_fst_of_allocTrue (alloc : Nat → Bool)
    (hA : ∀ n, alloc n = true) (newX newY : Int) (st : TextBufferState)
    (rows2 : List CRow) (k2 : Nat) :
    (resizeInstall alloc newX newY st rows2 k2).1 = .success := by
  simp only [resizeInstall]
  split_ifs
  all_goals try rfl
  all_goals simp_all [attrResizeLoop_fst_of_allocTrue alloc newX hA]

/-- `resizeInstall` resets the first-row index exactly when the row count
changed. -/
theorem resizeInstall_firstRowIndex (alloc : Nat → Bool) (newX newY : Int)
    (st : TextBufferState) (rows2 : List CRow) (k2 : Nat) :
    (resizeInstall alloc newX newY st rows2 k2).2.firstRowIndex =
      if newY ≠ st.bufY then 0 else st.firstRowIndex := by
  simp only [resizeInstall]
  split_ifs with hx <;> rfl

/-- When every allocation succeeds, row `k < LimitY` of the installed buffer
is the staged row `k` pushed through the per-row transform. -/
theorem resizeInstall_get (alloc : Nat → Bool) (hA : ∀ n, alloc n = true)
    (newX newY : Int) (st : TextBufferState) (rows2 : List CRow) (k2 : Nat)
    (k : Nat) (hk : k < (min newY st.bufY).toNat) :
    (resizeInstall alloc newX newY st rows2 k2).2.rows[k]? =
      rows2[k]?.map (traditionalRowTransform st.bufX newX k) := by
  simp only [resizeInstall]
  by_cases hx : newX ≠ st.bufX
  · rw [if_pos hx]
    show (attrResizeLoop alloc k2 newX (min newY st.bufY).toNat
        (fillPhase st.bufX newX (min newY st.bufY).toNat rows2)).2[k]? = _
    rw [attrResizeLoop_get_of_allocTrue alloc newX hA, if_pos hk,
      fillPhase_get st.bufX newX _ rows2 k hk]
    cases rows2[k]? <;> simp [traditionalRowTransform, hx]
  · rw [if_neg hx]
    show (fillPhase st.bufX newX (min newY st.bufY).toNat rows2)[k]? = _
    rw [fillPhase_get st.bufX newX _ rows2 k hk]
    cases rows2[k]? <;> simp [traditionalRowTransform, hx]

/-- C4: traditional-resize cursor-row retention.  On a valid buffer state,
with every allocation succeeding and a changed row count, the resize
succeeds; the rotation offset is `topRow = cursor.y - new.y + 1` when
`new.y ≤ cursor.y` (else 0); copying starts at the circular index
`(firstRowIndex + topRow) mod old.y` and the first-row index is reset to 0,
so new physical row `k` (for `k` below the row-count overlap) is old physical
row `(topRowIndex + k) mod old.y` pushed through the per-row transform; in
particular the old cursor row — old physical row
`(firstRowIndex + cursor.y) mod old.y` — is retained as the new row
`cursor.y - topRow`, where the (spec-modelled, caller-side) cursor lands.
Concretely, resizing a `(10, 5)` buffer with cursor `(0, 4)` to `(10, 3)`
makes old rows 2..4 the new rows 0..2 and the cursor ends at `(0, 2)`. -/
theorem C4_resizeTraditional_cursor_row_retention
    (alloc : Nat → Bool) (st : TextBufferState) (newX newY : Int)
    (hA : ∀ n, alloc n = true)
    (hLen : st.rows.length = st.bufY.toNat)
    (hOldY : 1 ≤ st.bufY)
    (hNewY : 1 ≤ newY) (hNewYlt : newY < 32767)
    (hNewX : 0 ≤ newX) (hNewXlt : newX < 32767)
    (hCy0 : 0 ≤ st.cursor.2) (hCy : st.cursor.2 < st.bufY)
    (hNe : newY ≠ st.bufY) :
    (ResizeTraditional alloc (newX, newY) st).1 = .success ∧
    (ResizeTraditional alloc (newX, newY) st).2.firstRowIndex = 0 ∧
    resizeTopRow newY st.cursor.2 =
      (if newY ≤ st.cursor.2 then st.cursor.2 - newY + 1 else 0) ∧
    resizeTopRowIndex st.firstRowIndex (resizeTopRow newY st.cursor.2) st.bufY =
      (st.firstRowIndex + (resizeTopRow newY st.cursor.2).toNat) % st.bufY.toNat ∧
    (∀ k : Nat, k < min newY.toNat st.bufY.toNat →
      (ResizeTraditional alloc (newX, newY) st).2.rows[k]? =
        (st.rows[(resizeTopRowIndex st.firstRowIndex
            (resizeTopRow newY st.cursor.2) st.bufY + k) % st.bufY.toNat]?).map
          (traditionalRowTransform st.bufX newX k)) ∧
    (newY ≤ st.cursor.2 →
      st.cursor.2 - resizeTopRow newY st.cursor.2 = newY - 1 ∧
      (ResizeTraditional alloc (newX, newY) st).2.rows[(st.cursor.2 -
          resizeTopRow newY st.cursor.2).toNat]? =
        (st.rows[(st.firstRowIndex + st.cursor.2.toNat) % st.bufY.toNat]?).map
          (traditionalRowTransform st.bufX newX
            (st.cursor.2 - resizeTopRow newY st.cursor.2).toNat) ∧
      cursorAfterTraditionalResize st.cursor newY =
        (st.cursor.1, st.cursor.2 - resizeTopRow newY st.cursor.2)) ∧
    (ResizeTraditional (fun _ => true) (10, 3) exampleBuffer).1 = .success ∧
    (ResizeTraditional (fun _ => true) (10, 3) exampleBuffer).2.rows =
      [{ exampleRow 2 with rowId := 0 }, { exampleRow 3 with rowId := 1 },
        { exampleRow 4 with rowId := 2 }] ∧
    cursorAfterTraditionalResize (0, 4) 3 = (0, 2) := by
  have htr0 : 0 ≤ resizeTopRow newY st.cursor.2 := by
    simp only [resizeTopRow]
    split_ifs <;> omega
  have hguard : ¬ (ushortCast newX ≥ 32767 ∨ ushortCast newY ≥ 32767) := by
    push_neg
    constructor <;> (simp only [ushortCast]; rw [Int.emod_eq_of_lt (by omega) (by omega)]; omega)
  have hTlt : resizeTopRowIndex st.firstRowIndex (resizeTopRow newY st.cursor.2) st.bufY <
      st.bufY.toNat := by
    simp only [resizeTopRowIndex]
    have h1 : 0 ≤ ((st.firstRowIndex : Int) + resizeTopRow newY st.cursor.2) % st.bufY :=
      Int.emod_nonneg _ (by omega)
    have h2 : ((st.firstRowIndex : Int) + resizeTopRow newY st.cursor.2) % st.bufY < st.bufY :=
      Int.emod_lt_of_pos _ (by omega)
    omega
  have hTeq : resizeTopRowIndex st.firstRowIndex (resizeTopRow newY st.cursor.2) st.bufY =
      (st.firstRowIndex + (resizeTopRow newY st.cursor.2).toNat) % st.bufY.toNat := by
    simp only [resizeTopRowIndex]
    rw [show (st.firstRowIndex : Int) + resizeTopRow newY st.cursor.2 =
      ((st.firstRowIndex + (resizeTopRow newY st.cursor.2).toNat : Nat) : Int) from by push_cast; omega]
    rw [show st.bufY = ((st.bufY.toNat : Nat) : Int) from by omega]
    rw [← Int.natCast_mod, Int.toNat_natCast, Int.toNat_natCast]
  obtain ⟨k2, hstage⟩ := stageRowArray_of_allocTrue alloc hA 2 st.rows
    (resizeTopRowIndex st.firstRowIndex (resizeTopRow newY st.cursor.2) st.bufY)
    st.bufY.toNat newY.toNat newX
  have hres : ResizeTraditional alloc (newX, newY) st =
      resizeInstall alloc newX newY st
        (stagedRows st.rows
          (resizeTopRowIndex st.firstRowIndex (resizeTopRow newY st.cursor.2) st.bufY)
          st.bufY.toNat newY.toNat newX) k2 := by
    simp only [ResizeTraditional]
    rw [if_neg hguard, if_neg (not_not_intro (hA 0)), if_neg (not_not_intro (hA 1))]
    simp only [resizeStage, if_pos hNe]
    rw [hstage]
  have hmap : ∀ k : Nat, k < min newY.toNat st.bufY.toNat →
      (ResizeTraditional alloc (newX, newY) st).2.rows[k]? =
        (st.rows[(resizeTopRowIndex st.firstRowIndex
            (resizeTopRow newY st.cursor.2) st.bufY + k) % st.bufY.toNat]?).map
          (traditionalRowTransform st.bufX newX k) := by
    intro k hk
    rw [hres, resizeInstall_get alloc hA newX newY st _ k2 k (by omega)]
    rw [stagedRows_get st.rows _ st.bufY.toNat newY.toNat newX hLen hTlt k (by omega)]
  refine ⟨?_, ?_, rfl, hTeq, hmap, ?_, by decide, by decide, by decide⟩
  · rw [hres]
    exact resizeInstall_fst_of_allocTrue alloc hA newX newY st _ k2
  · rw [hres, resizeInstall_firstRowIndex, if_pos hNe]
  · intro hcy
    have hk1 : st.cursor.2 - resizeTopRow newY st.cursor.2 = newY - 1 := by
      simp only [resizeTopRow, if_pos hcy]
      omega
    refine ⟨hk1, ?_, rfl⟩
    have hklt : (st.cursor.2 - resizeTopRow newY st.cursor.2).toNat <
        min newY.toNat st.bufY.toNat := by omega
    have h5 := hmap ((st.cursor.2 - resizeTopRow newY st.cursor.2).toNat) hklt
    have hidx : (resizeTopRowIndex st.firstRowIndex (resizeTopRow newY st.cursor.2) st.bufY +
        (st.cursor.2 - resizeTopRow newY st.cursor.2).toNat) % st.bufY.toNat =
        (st.firstRowIndex + st.cursor.2.toNat) % st.bufY.toNat := by
      rw [hTeq, Nat.mod_add_mod]
      congr 1
      omega
    rw [hidx] at h5
    exact h5

/-- C4 witness: the general retention theorem applied to the concrete
`(10, 5) → (10, 3)` scenario with cursor `(0, 4)`. -/
theorem C4_resizeTraditional_cursor_row_retention_witness :
    (ResizeTraditional (fun _ => true) (10, 3) exampleBuffer).1 = .success ∧
    (ResizeTraditional (fun _ => true) (10, 3) exampleBuffer).2.firstRowIndex = 0 :=
  ⟨(C4_resizeTraditional_cursor_row_retention (fun _ => true) exampleBuffer 10 3
      (fun _ => rfl) (by decide) (by decide) (by decide) (by decide) (by decide)
      (by decide) (by decide) (by decide) (by decide)).1,
   (C4_resizeTraditional_cursor_row_retention (fun _ => true) exampleBuffer 10 3
      (fun _ => rfl) (by decide) (by decide) (by decide) (by decide) (by decide)
      (by decide) (by decide) (by decide) (by decide)).2.1⟩

/-! ### Alt-buffer pairing and pipeline transfer

Model of the main/alt screen-buffer pair and the output pipeline custody
(`_CreateAltBuffer`, `UseAlternateScreenBuffer`, `UseMainScreenBuffer`,
`_FreeOutputStateMachine`, screenInfo.cpp:254-287 and 1880-1999).  Heap
objects are modelled by numeric handles: a pipeline is the four handle ids
(state machine, adapter, buffer writer, getset); `freed` records every handle
that has been `delete`d; `registry` is the list of live screen-buffer ids in
the console's linked list.  The success path is modelled (the claim is about
runs in which `UseAlternateScreenBuffer` succeeds). -/

/-- The four output-pipeline handles owned by a screen buffer. -/
structure Pipeline where
  stateMachine : Nat
  adapter : Nat
  bufferWriter : Nat
  conApi : Nat
deriving DecidableEq, Repr

/-- A screen buffer: its registry id and its pipeline handle pointers. -/
structure ScreenBuf where
  id : Nat
  pip : Pipeline
deriving DecidableEq, Repr

/-- The console state relevant to the main/alt pair: a fresh-handle counter,
a fresh-buffer-id counter, the deleted handles, the registry, the main
buffer, the optional alt buffer, the active buffer id, and the buffers the
getset (`_pConApi`) and buffer writer (`_pBufferWriter`) currently point
at. -/
structure ConsoleState where
  nextHandle : Nat
  nextBufId : Nat
  freed : List Nat
  registry : List Nat
  main : ScreenBuf
  alt : Option ScreenBuf
  activeId : Nat
  conApiTarget : Nat
  writerTarget : Nat
deriving DecidableEq, Repr

/-- `_InitializeOutputStateMachine` (screenInfo.cpp:215): allocates the four
pipeline objects; modelled as four fresh handles. -/
def initPipeline (n : Nat) : Pipeline × Nat :=
  (⟨n, n + 1, n + 2, n + 3⟩, n + 4)

/-- The main-buffer branch of `_FreeOutputStateMachine`
(screenInfo.cpp:256-281) deletes all four pipeline objects. -/
def freePipelineHandles (p : Pipeline) (freed : List Nat) : List Nat :=
  p.stateMachine :: p.adapter :: p.bufferWriter :: p.conApi :: freed

/-- Model of `UseAlternateScreenBuffer` (screenInfo.cpp:1919) on a main
buffer with no pre-existing alt, success path.  `_CreateAltBuffer`
(screenInfo.cpp:1880) creates the new buffer with a freshly constructed
pipeline, registers it (`s_InsertScreenBuffer`), immediately frees that fresh
pipeline via `_FreeOutputStateMachine` (the new buffer has no main yet, so
the main-buffer branch deletes all four objects), and copies the main's four
pipeline pointers into the new buffer; `UseAlternateScreenBuffer` then links
the pair, redirects the getset and buffer writer to the alt, and makes the
alt active. -/
def UseAlternateScreenBuffer (c : ConsoleState) : ConsoleState :=
  let fresh := initPipeline c.nextHandle
  let altId := c.nextBufId
  { c with
    nextHandle := fresh.2,
    nextBufId := c.nextBufId + 1,
    registry := altId :: c.registry,
    freed := freePipelineHandles fresh.1 c.freed,
    alt := some ⟨altId, c.main.pip⟩,
    conApiTarget := altId,
    writerTarget := altId,
    activeId := altId }

/-- Model of `UseMainScreenBuffer` (screenInfo.cpp:1970) called on the alt of
a pair: make the main active, clear the main's alt pointer, remove the alt
from the registry — which deletes it, and the alt branch of
`_FreeOutputStateMachine` (screenInfo.cpp:282-286) hands the getset and
buffer writer back to the main without deleting any pipeline object.  On a
buffer with no main this is a no-op. -/
def UseMainScreenBuffer (c : ConsoleState) : ConsoleState :=
  match c.alt with
  | none => c
  | some a =>
    { c with
      activeId := c.main.id,
      alt := none,
      registry := c.registry.erase a.id,
      conApiTarget := c.main.id,
      writerTarget := c.main.id }

/-- All four handles of a pipeline are outside the freed set. -/
def pipLive (p : Pipeline) (freed : List Nat) : Prop :=
  p.stateMachine ∉ freed ∧ p.adapter ∉ freed ∧
  p.bufferWriter ∉ freed ∧ p.conApi ∉ freed

instance (p : Pipeline) (freed : List Nat) : Decidable (pipLive p freed) := by
  unfold pipLive
  infer_instance

/-- All four handles of a pipeline are below the fresh-handle counter. -/
def pipBelow (p : Pipeline) (n : Nat) : Prop :=
  p.stateMachine < n ∧ p.adapter < n ∧ p.bufferWriter < n ∧ p.conApi < n

instance (p : Pipeline) (n : Nat) : Decidable (pipBelow p n) := by
  unfold pipBelow
  infer_instance

/-- C8: single-custodian pipeline transfer.  Starting from a main `M` with no
alt, whose pipeline `P` consists of already-allocated live handles, a
successful `UseAlternateScreenBuffer` leaves: the new alt `A` linked and
registered, its own freshly constructed pipeline freed, all four of `A`'s
handle pointers equal to `M`'s (both sides observe `P`), the getset/writer
redirected to `A`, and `P`'s handles still live; the subsequent
`UseMainScreenBuffer` tears `A` down, removing it from the registry and
handing the getset/writer back to `M`, and `M` still observes `P` with live
(non-dangling) handles. -/
theorem C8_pipeline_single_custodian (c : ConsoleState)
    (hAlt : c.alt = none)
    (hBelow : pipBelow c.main.pip c.nextHandle)
    (hLive : pipLive c.main.pip c.freed) :
    ((UseAlternateScreenBuffer c).alt = some ⟨c.nextBufId, c.main.pip⟩ ∧
     c.nextBufId ∈ (UseAlternateScreenBuffer c).registry ∧
     (UseAlternateScreenBuffer c).main.pip = c.main.pip ∧
     (UseAlternateScreenBuffer c).conApiTarget = c.nextBufId ∧
     (UseAlternateScreenBuffer c).writerTarget = c.nextBufId ∧
     (UseAlternateScreenBuffer c).activeId = c.nextBufId) ∧
    (c.nextHandle ∈ (UseAlternateScreenBuffer c).freed ∧
     c.nextHandle + 1 ∈ (UseAlternateScreenBuffer c).freed ∧
     c.nextHandle + 2 ∈ (UseAlternateScreenBuffer c).freed ∧
     c.nextHandle + 3 ∈ (UseAlternateScreenBuffer c).freed) ∧
    pipLive c.main.pip (UseAlternateScreenBuffer c).freed ∧
    ((UseMainScreenBuffer (UseAlternateScreenBuffer c)).main.pip = c.main.pip ∧
     pipLive c.main.pip (UseMainScreenBuffer (UseAlternateScreenBuffer c)).freed ∧
     (UseMainScreenBuffer (UseAlternateScreenBuffer c)).alt = none ∧
     (UseMainScreenBuffer (UseAlternateScreenBuffer c)).registry = c.registry ∧
     (UseMainScreenBuffer (UseAlternateScreenBuffer c)).conApiTarget = c.main.id ∧
     (UseMainScreenBuffer (UseAlternateScreenBuffer c)).writerTarget = c.main.id ∧
     (UseMainScreenBuffer (UseAlternateScreenBuffer c)).activeId = c.main.id) := by
  obtain ⟨b1, b2, b3, b4⟩ := hBelow
  obtain ⟨l1, l2, l3, l4⟩ := hLive
  have hfreed : pipLive c.main.pip (UseAlternateScreenBuffer c).freed := by
    simp only [UseAlternateScreenBuffer, freePipelineHandles, initPipeline,
      pipLive, List.mem_cons]
    refine ⟨?_, ?_, ?_, ?_⟩ <;> rintro (h | h | h | h | h) <;>
      first | omega | exact l1 h | exact l2 h | exact l3 h | exact l4 h
  refine ⟨⟨rfl, List.mem_cons_self _ _, rfl, rfl, rfl, rfl⟩, ?_, hfreed,
    rfl, hfreed, rfl, List.erase_cons_head _ _, rfl, rfl, rfl⟩
  exact ⟨List.mem_cons_self _ _,
    List.mem_cons_of_mem _ (List.mem_cons_self _ _),
    List.mem_cons_of_mem _ (List.mem_cons_of_mem _ (List.mem_cons_self _ _)),
    List.mem_cons_of_mem _ (List.mem_cons_of_mem _
      (List.mem_cons_of_mem _ (List.mem_cons_self _ _)))⟩

/-- Concrete console for the pipeline-transfer scenario: one main buffer with
id 0 owning pipeline handles 0-3, nothing freed. -/
def c8Example : ConsoleState :=
  { nextHandle := 4, nextBufId := 1, freed := [], registry := [0],
    main := ⟨0, ⟨0, 1, 2, 3⟩⟩, alt := none, activeId := 0,
    conApiTarget := 0, writerTarget := 0 }

/-- C8 witness: on the concrete console, after the alternate round trip the
main still observes pipeline `P` with live handles. -/
theorem C8_pipeline_single_custodian_witness :
    (UseMainScreenBuffer (UseAlternateScreenBuffer c8Example)).main.pip =
      c8Example.main.pip ∧
    pipLive c8Example.main.pip
      (UseMainScreenBuffer (UseAlternateScreenBuffer c8Example)).freed :=
  ⟨(C8_pipeline_single_custodian c8Example rfl (by decide) (by decide)).2.2.2.1,
   (C8_pipeline_single_custodian c8Example rfl (by decide) (by decide)).2.2.2.2.1⟩
